import Mathlib

/-!
Shallow embedding of the Tryton `product` module (`product.py`): the
`Template` and `Product` (variant) model classes, the `TemplateFunction`
proxy-field descriptor and the helpers they define.  Python values are
modelled by the inductive `Val`; dictionaries by `String → Option Val`
(outer `none` means the key is absent, the stored `Val.none` is the Python
`None`); mutable dictionaries, where mutation matters, by a small heap of
addresses.  External framework collaborators (the unit-of-measure price
conversion, `copy.copy`/`copy.deepcopy` of a field descriptor, the
framework `default_get`) are taken as parameters.
-/

namespace TrytonProduct

/-- A Python runtime value as it appears in this module: `None`, booleans,
integers, strings, Decimals (as rationals), active-record instances
(`Model`, carrying their integer id), and lists/tuples. -/
inductive Val where
  | none
  | bool (b : Bool)
  | int (n : Int)
  | str (s : String)
  | rat (q : ℚ)
  | model (id : Int)
  | list (vs : List Val)

/-- Python truthiness of a `Val`. -/
def pyTruthy : Val → Bool
  | Val.none => false
  | Val.bool b => b
  | Val.int n => n != 0
  | Val.str s => s != ""
  | Val.rat q => q != 0
  | Val.model _ => true
  | Val.list vs => !vs.isEmpty

/-- `r.id` on a value: succeeds exactly when the value is a `Model`
instance, as in the comprehension `[r.id for r in value]`. -/
def modelId : Val → Option Val
  | Val.model i => some (Val.int i)
  | _ => Option.none

/-- `Product.get_template(self, name)`: reads `getattr(self.template, name)`
(the template is modelled as its attribute map); a single `Model` becomes
its id, a non-empty list/tuple whose first element is a `Model` becomes the
list of ids (`none` signals the `AttributeError` a non-`Model` later in the
list would raise), anything else is returned unchanged. -/
def Product.get_template (template : String → Val) (name : String) : Option Val :=
  match template name with
  | Val.model i => some (Val.int i)
  | Val.list vs =>
    match vs with
    | [] => some (Val.list [])
    | v :: rest =>
      match v with
      | Val.model _ => ((v :: rest).mapM modelId).map Val.list
      | _ => some (Val.list (v :: rest))
  | v => some v

/-- A `fields.Function` descriptor instance: the wrapped inner field (of
abstract descriptor type `F`, owned by the framework), the getter and
searcher names passed to `Function.__init__`, and the runtime class tag
distinguishing a `TemplateFunction` instance from a plain `Function`. -/
structure FunctionField (F : Type) where
  isTemplateFunction : Bool
  field : F
  getter : String
  searcher : String

/-- `TemplateFunction.__init__(self, field)`: calls
`Function.__init__` with the field, the getter name `get_template` and the
searcher name `search_template`;
the constructed object is a `TemplateFunction` instance. -/
def TemplateFunction.make {F : Type} (field : F) : FunctionField F :=
  { isTemplateFunction := true, field := field,
    getter := "get_template", searcher := "search_template" }

/-- `TemplateFunction.__copy__`: `TemplateFunction(copy.copy(self._field))`,
with `copy.copy` on the inner field taken as the parameter `copyF`. -/
def TemplateFunction.copy {F : Type} (copyF : F → F) (tf : FunctionField F) :
    FunctionField F :=
  TemplateFunction.make (copyF tf.field)

/-- `TemplateFunction.__deepcopy__`:
`TemplateFunction(copy.deepcopy(self._field, memo))`, with `copy.deepcopy`
taken as the parameter `deepF`. -/
def TemplateFunction.deepcopy {F : Type} (deepF : F → F) (tf : FunctionField F) :
    FunctionField F :=
  TemplateFunction.make (deepF tf.field)

/-- The update of `cls._no_template_field` with `products` in `Product.__setup__`:
the exclusion set after the update. -/
def no_template_field (base : List String) : List String :=
  "products" :: base

/-- The per-attribute effect of the loop in `Product.__setup__` (attribute
names in `dir(Template)` are distinct, so the loop acts pointwise):
`templateField` gives the Template field descriptors, `existing` the fields
already present on `Product`, `deep` is `copy.deepcopy`.  An attribute that
is a Template field, is not excluded, and is absent on Product or already a
`TemplateFunction`, gets a fresh `TemplateFunction` proxy. -/
def Product.setup {F : Type} (deep : F → F) (templateField : String → Option F)
    (noTmpl : List String) (existing : String → Option (FunctionField F))
    (attr : String) : Option (FunctionField F) :=
  match templateField attr with
  | Option.none => existing attr
  | some tfield =>
    if attr ∈ no_template_field noTmpl then existing attr
    else
      match existing attr with
      | Option.none => some (TemplateFunction.make (deep tfield))
      | some f =>
        if f.isTemplateFunction then some (TemplateFunction.make (deep tfield))
        else some f

/-- A Python dict with string keys: outer `none` means the key is absent. -/
def Dict : Type := String → Option Val

/-- `d.setdefault(k, v)`: the dict after the call (the key is set to `v`
only when it was absent). -/
def Dict.setdefault (d : Dict) (k : String) (v : Val) : Dict :=
  fun k2 => if k2 = k then (match d k with
    | some w => some w
    | Option.none => some v)
  else d k2

/-- The audit field names excluded from `fields_names` in
`Template.default_products`. -/
def auditFields : List String :=
  ["id", "create_uid", "create_date", "write_uid", "write_date"]

/-- `Template.default_products()`: returns `[]` when `Transaction().user`
is the system user (id 0), otherwise one payload obtained from
`Product.default_get` (the framework call, parameter `default_get`) over
all Product field names except the audit fields. -/
def Template.default_products (user : Nat) (productFieldNames : List String)
    (default_get : List String → Dict) : List Dict :=
  if user = 0 then []
  else [default_get (productFieldNames.filter (fun f => !auditFields.contains f))]

/-- A heap of mutable dicts: addresses below `next` are allocated. -/
structure Heap where
  dicts : Nat → Dict
  next : Nat

/-- Allocate a fresh dict on the heap, returning its address. -/
def Heap.alloc (h : Heap) (d : Dict) : Heap × Nat :=
  (⟨fun a => if a = h.next then d else h.dicts a, h.next + 1⟩, h.next)

/-- `Template.create(cls, vlist)` up to the `super().create` call, on the
heap model: each payload is copied (`v.copy()`, a fresh allocation) and the
copy gets `setdefault` of `products` to `None`; the caller dicts at the input
addresses are never written. -/
def Template.create (h : Heap) (vlist : List Nat) : Heap × List Nat :=
  match vlist with
  | [] => (h, [])
  | a :: rest =>
    let p := h.alloc ((h.dicts a).setdefault "products" Val.none)
    let r := Template.create p.1 rest
    (r.1, p.2 :: r.2)

/-- Whether the character list `p` leads the character list `s`. -/
def charsLead : List Char → List Char → Bool
  | [], _ => true
  | _ :: _, [] => false
  | p :: ps, c :: cs => p == c && charsLead ps cs

/-- The Python call `s.startswith(p)`. -/
def py_startswith (s p : String) : Bool :=
  charsLead p.data s.data

/-- A search clause `(field, operator, operand...)`: the framework always
passes at least the field name and the operator; `operand` holds
`clause[2:]`. -/
structure Clause where
  field : String
  operator : String
  operand : List Val

/-- `Product.search_rec_name(cls, name, clause)`: the returned domain
a boolean operator followed by the clause retargeted at `code` and at
`template.name`. -/
def Product.search_rec_name (clause : Clause) : String × Clause × Clause :=
  let bool_op :=
    if py_startswith clause.operator "!" || py_startswith clause.operator "not " then "AND"
    else "OR"
  (bool_op,
    { field := "code", operator := clause.operator, operand := clause.operand },
    { field := "template.name", operator := clause.operator, operand := clause.operand })

/-- `Product.search_template(cls, name, clause)`:
the clause retargeted at `template.<name>`. -/
def Product.search_template (name : String) (clause : Clause) : List Clause :=
  [{ field := "template." ++ name, operator := clause.operator,
     operand := clause.operand }]

/-- `Template.search_default_uom_category(cls, name, clause)`:
the clause retargeted at `default_uom.category`. -/
def Template.search_default_uom_category (clause : Clause) : List Clause :=
  [{ field := "default_uom.category", operator := clause.operator,
     operand := clause.operand }]

/-- `Product.get_rec_name(self, name)`: `self.code` is the Char field
(`none` is Python `None`); `self.name` goes through the `TemplateFunction`
proxy, i.e. `get_template` on the linked template, and must resolve to a
string for the concatenation to succeed. -/
def Product.get_rec_name (code : Option String) (template : String → Val) :
    Option String :=
  match Product.get_template template "name" with
  | some (Val.str nm) =>
    some (match code with
      | some c => if c = "" then nm else "[" ++ c ++ "] " ++ nm
      | Option.none => nm)
  | _ => Option.none

/-- The Python `or` of an optional icon string and a fallback. -/
def pyOrStr (icon : Option String) (fallback : String) : String :=
  match icon with
  | some s => if s = "" then fallback else s
  | Option.none => fallback

/-- `Template.search_global(cls, text)`: the results of the generic
`super().search_global` (parameter `results`, triples of record, record
name, optional icon) with the icon defaulted to `tryton-product`. -/
def Template.search_global {α : Type} (results : List (α × String × Option String)) :
    List (α × String × String) :=
  results.map (fun r => (r.1, r.2.1, pyOrStr r.2.2 "tryton-product"))

/-- `Product.search_global(cls, text)`: identical wrapping of the
framework results, on `Product`. -/
def Product.search_global {α : Type} (results : List (α × String × Option String)) :
    List (α × String × String) :=
  results.map (fun r => (r.1, r.2.1, pyOrStr r.2.2 "tryton-product"))

/-- A row of the `product_template` table as the migration statements in
`Template.__register__` see it: the `type` and `consumable` columns plus
the untouched remaining columns. -/
structure Row where
  type : String
  consumable : Bool
  data : String → Val

/-- The first migration UPDATE:
setting `consumable` to true where `type` is `consumable`. -/
def migrateConsumable (r : Row) : Row :=
  if r.type = "consumable" then { r with consumable := true } else r

/-- The second migration UPDATE:
setting `type` to `goods` where `type` is `stockable` or `consumable`. -/
def migrateType (r : Row) : Row :=
  if r.type = "stockable" ∨ r.type = "consumable" then { r with type := "goods" }
  else r

/-- The two type-migration UPDATEs of `Template.__register__`, in source
order (consumable flag first, then the type rewrite), applied to every
table row. -/
def Template.register_migration (rows : List Row) : List Row :=
  (rows.map migrateConsumable).map migrateType

/-- A product as `Product.get_price_uom` reads it: its id, its
`default_uom` (the unit-of-measure record, by id), and the two underlying
price fields. -/
structure PriceProduct where
  id : Int
  default_uom : Int
  list_price : ℚ
  cost_price : ℚ

/-- `getattr(product, field)` for the stripped field name. -/
def PriceProduct.getPrice (p : PriceProduct) (field : String) : Option ℚ :=
  if field = "list_price" then some p.list_price
  else if field = "cost_price" then some p.cost_price
  else Option.none

/-- The transaction context lookup of the `uom` key followed by the truthiness test:
`some v` exactly when the context holds a truthy value under `uom`. -/
def ctx_uom (context : String → Option Val) : Option Val :=
  match context "uom" with
  | some v => if pyTruthy v then some v else Option.none
  | Option.none => Option.none

/-- One assignment `res[product.id] = price` into the `res` dict. -/
def dictInsert (m : Int → Option ℚ) (q : Int × ℚ) : Int → Option ℚ :=
  Function.update m q.1 (some q.2)

/-- The `res` dict built by the loops of `get_price_uom`: successive
assignments `res[product.id] = price`, starting from the empty dict. -/
def buildDict (pairs : List (Int × ℚ)) : Int → Option ℚ :=
  pairs.foldl dictInsert (fun _ => Option.none)

/-- `Product.get_price_uom(products, name)`: `field = name[:-4]`; when the
transaction context holds a (truthy) target uom id, the price of each product is
converted by `Uom.compute_price(product.default_uom, getattr(product,
field), to_uom)` (the external utility, parameter `compute_price`);
otherwise the raw price is used.  `none` signals the errors Python would
raise (a context uom that is not an id, or a missing price attribute). -/
def Product.get_price_uom (compute_price : Int → ℚ → Int → ℚ)
    (context : String → Option Val) (products : List PriceProduct)
    (name : String) : Option (Int → Option ℚ) :=
  let field := name.dropRight 4
  match ctx_uom context with
  | some (Val.int u) =>
    (products.mapM (fun (p : PriceProduct) =>
      (p.getPrice field).map (fun pr => (p.id, compute_price p.default_uom pr u)))).map
      buildDict
  | some _ => Option.none
  | Option.none =>
    (products.mapM (fun (p : PriceProduct) =>
      (p.getPrice field).map (fun pr => (p.id, pr)))).map
      buildDict

/-! ### Helper lemmas -/

theorem mapM_modelId (ids : List Int) :
    (ids.map Val.model).mapM modelId = some (ids.map Val.int) := by
  induction ids with
  | nil => rfl
  | cons i t ih =>
    rw [List.map_cons, List.mapM_cons, ih]
    rfl

theorem mapM_option_congr {α β : Type} (f : α → Option β) (g : α → β) (l : List α)
    (hf : ∀ a ∈ l, f a = some (g a)) : l.mapM f = some (l.map g) := by
  induction l with
  | nil => rfl
  | cons a t ih =>
    rw [List.mapM_cons, hf a (List.mem_cons_self a t),
      ih (fun b hb => hf b (List.mem_cons_of_mem a hb))]
    rfl

theorem buildDict_foldl_not_mem (pairs : List (Int × ℚ)) (m : Int → Option ℚ)
    (k : Int) (hk : k ∉ pairs.map Prod.fst) :
    pairs.foldl dictInsert m k = m k := by
  induction pairs generalizing m with
  | nil => rfl
  | cons q t ih =>
    simp only [List.map_cons, List.mem_cons, not_or] at hk
    rw [List.foldl_cons, ih _ hk.2]
    exact Function.update_noteq hk.1 _ _

theorem buildDict_foldl_lookup (pairs : List (Int × ℚ)) (m : Int → Option ℚ)
    (i : Int) (q : ℚ) (hnd : (pairs.map Prod.fst).Nodup) (hq : (i, q) ∈ pairs) :
    pairs.foldl dictInsert m i = some q := by
  induction pairs generalizing m with
  | nil => cases hq
  | cons a t ih =>
    simp only [List.map_cons, List.nodup_cons] at hnd
    rcases List.mem_cons.mp hq with hq1 | hq2
    · subst hq1
      rw [List.foldl_cons, buildDict_foldl_not_mem t _ i hnd.1]
      exact Function.update_same _ _ _
    · rw [List.foldl_cons]
      exact ih _ hnd.2 hq2

theorem buildDict_lookup (pairs : List (Int × ℚ)) (i : Int) (q : ℚ)
    (hnd : (pairs.map Prod.fst).Nodup) (hq : (i, q) ∈ pairs) :
    buildDict pairs i = some q :=
  buildDict_foldl_lookup pairs _ i q hnd hq

theorem Heap.alloc_dicts (h : Heap) (d : Dict) (a : Nat) :
    (h.alloc d).1.dicts a = if a = h.next then d else h.dicts a := rfl

theorem Heap.alloc_next (h : Heap) (d : Dict) : (h.alloc d).1.next = h.next + 1 := rfl

theorem Template.create_next (h : Heap) (vlist : List Nat) :
    h.next ≤ (Template.create h vlist).1.next := by
  induction vlist generalizing h with
  | nil => exact Nat.le_refl _
  | cons a t ih =>
    simp only [Template.create]
    have hstep := ih (h.alloc ((h.dicts a).setdefault "products" Val.none)).1
    exact Nat.le_trans (Nat.le_succ h.next) hstep

theorem Template.create_preserves (h : Heap) (vlist : List Nat) (a : Nat)
    (ha : a < h.next) :
    (Template.create h vlist).1.dicts a = h.dicts a := by
  induction vlist generalizing h with
  | nil => rfl
  | cons b t ih =>
    simp only [Template.create]
    rw [ih _ (Nat.lt_trans ha (Nat.lt_succ_self _)),
      Heap.alloc_dicts, if_neg (Nat.ne_of_lt ha)]

theorem Template.create_spec (h : Heap) (vlist : List Nat)
    (hv : ∀ a ∈ vlist, a < h.next) :
    (Template.create h vlist).2.length = vlist.length ∧
    ∀ q ∈ vlist.zip (Template.create h vlist).2,
      ((Template.create h vlist).1).dicts q.2
        = (h.dicts q.1).setdefault "products" Val.none := by
  induction vlist generalizing h with
  | nil => exact ⟨rfl, by intro q hq; cases hq⟩
  | cons a t ih =>
    have ha : a < h.next := hv a (List.mem_cons_self a t)
    have hv2 : ∀ b ∈ t, b < (h.alloc ((h.dicts a).setdefault "products" Val.none)).1.next :=
      fun b hb => Nat.lt_trans (hv b (List.mem_cons_of_mem a hb)) (Nat.lt_succ_self _)
    obtain ⟨hlen, hall⟩ := ih _ hv2
    refine ⟨by simp only [Template.create, List.length_cons, hlen], ?_⟩
    intro q hq
    simp only [Template.create] at hq ⊢
    simp only [Heap.alloc] at hq hall ⊢
    rw [List.zip_cons_cons, List.mem_cons] at hq
    rcases hq with hq1 | hq2
    · subst hq1
      rw [Template.create_preserves _ t h.next (Nat.lt_succ_self _)]
      simp
    · have hmem := List.of_mem_zip hq2
      rw [hall q hq2]
      rw [if_neg (Nat.ne_of_lt (hv q.1 (List.mem_cons_of_mem a hmem.1)))]

theorem Dict.setdefault_products_some (d : Dict) :
    ∃ v, (d.setdefault "products" Val.none) "products" = some v := by
  unfold Dict.setdefault
  rw [if_pos rfl]
  cases d "products" with
  | none => exact ⟨Val.none, rfl⟩
  | some w => exact ⟨w, rfl⟩

/-! ### Claim theorems -/

/-- Claim C1: every Template field outside the exclusion set (which always
contains `products`) whose name is free on `Product`, or already held by a
`TemplateFunction`, is installed by `__setup__` as a `TemplateFunction`
proxy whose getter is `get_template`; and `get_template` returns the id of
a single related record, the list of ids of a non-empty collection of
related records, and any other value of the linked Template unchanged. -/
theorem C1_proxy_fields_reflect_template {F : Type} (deep : F → F)
    (templateField : String → Option F) (noTmpl : List String)
    (existing : String → Option (FunctionField F)) (attr : String) (tfld : F)
    (template : String → Val)
    (hfield : templateField attr = some tfld)
    (hexcl : attr ∉ no_template_field noTmpl)
    (hex : existing attr = Option.none ∨
      ∃ f, existing attr = some f ∧ f.isTemplateFunction = true) :
    (Product.setup deep templateField noTmpl existing attr
        = some (TemplateFunction.make (deep tfld)) ∧
      (TemplateFunction.make (deep tfld)).getter = "get_template") ∧
    (∀ i, template attr = Val.model i →
      Product.get_template template attr = some (Val.int i)) ∧
    (∀ ids, ids ≠ [] → template attr = Val.list (ids.map Val.model) →
      Product.get_template template attr = some (Val.list (ids.map Val.int))) ∧
    (∀ v, template attr = v → (∀ i, v ≠ Val.model i) →
      (∀ i vs, v ≠ Val.list (Val.model i :: vs)) →
      Product.get_template template attr = some v) := by
  refine ⟨⟨?_, rfl⟩, ?_, ?_, ?_⟩
  · rcases hex with h1 | ⟨f, hf, htf⟩
    · simp [Product.setup, hfield, hexcl, h1]
    · simp [Product.setup, hfield, hexcl, hf, htf]
  · intro i hi
    simp [Product.get_template, hi]
  · intro ids hne hl
    obtain ⟨i, t, rfl⟩ : ∃ i t, ids = i :: t := by
      cases ids with
      | nil => exact absurd rfl hne
      | cons i t => exact ⟨i, t, rfl⟩
    have hgt : Product.get_template template attr
        = ((Val.model i :: List.map Val.model t).mapM modelId).map Val.list := by
      unfold Product.get_template
      rw [hl, List.map_cons]
    have hm := mapM_modelId (i :: t)
    rw [List.map_cons] at hm
    rw [hgt, hm]
    rfl
  · intro v hv hm hlv
    cases v with
    | model i => exact absurd rfl (hm i)
    | list vs =>
      cases vs with
      | nil => simp [Product.get_template, hv]
      | cons v0 rest =>
        cases v0 with
        | model i => exact absurd rfl (hlv i rest)
        | none => simp [Product.get_template, hv]
        | bool b => simp [Product.get_template, hv]
        | int n => simp [Product.get_template, hv]
        | str s => simp [Product.get_template, hv]
        | rat q => simp [Product.get_template, hv]
        | list ws => simp [Product.get_template, hv]
    | none => simp [Product.get_template, hv]
    | bool b => simp [Product.get_template, hv]
    | int n => simp [Product.get_template, hv]
    | str s => simp [Product.get_template, hv]
    | rat q => simp [Product.get_template, hv]

/-- Witness for C1: the field `name` (not excluded, not yet on Product)
gets a proxy, and a string-valued template attribute is read unchanged. -/
theorem C1_proxy_fields_reflect_template_witness :
    Product.setup (fun x : Unit => x) (fun _ => some ()) [] (fun _ => Option.none)
        "name" = some (TemplateFunction.make ()) ∧
    Product.get_template (fun _ => Val.str "Widget") "name"
        = some (Val.str "Widget") :=
  ⟨(C1_proxy_fields_reflect_template (fun x : Unit => x) (fun _ => some ()) []
      (fun _ => Option.none) "name" () (fun _ => Val.str "Widget") rfl (by decide)
      (Or.inl rfl)).1.1,
   (C1_proxy_fields_reflect_template (fun x : Unit => x) (fun _ => some ()) []
      (fun _ => Option.none) "name" () (fun _ => Val.str "Widget") rfl (by decide)
      (Or.inl rfl)).2.2.2 (Val.str "Widget") rfl (fun i h => Val.noConfusion h)
      (fun i vs h => Val.noConfusion h)⟩

/-- Claim C2: `default_products` yields exactly one Product payload (all
fields defaulted via `Product.default_get` over the non-audit field names)
when the transaction user is not the system user, and none when it is; and
`Template.create` gives every payload an explicit `products` key
(defaulting it to `None`), the copies it passes on being exactly the
caller dicts with that key defaulted. -/
theorem C2_default_variant_on_create (user : Nat) (productFieldNames : List String)
    (default_get : List String → Dict) (h : Heap) (vlist : List Nat)
    (hv : ∀ a ∈ vlist, a < h.next) :
    (user = 0 → Template.default_products user productFieldNames default_get = []) ∧
    (user ≠ 0 → Template.default_products user productFieldNames default_get
        = [default_get (productFieldNames.filter
            (fun f => !auditFields.contains f))]) ∧
    (Template.create h vlist).2.length = vlist.length ∧
    ∀ q ∈ vlist.zip (Template.create h vlist).2,
      ((Template.create h vlist).1).dicts q.2
          = (h.dicts q.1).setdefault "products" Val.none ∧
      ∃ w, (((Template.create h vlist).1).dicts q.2) "products" = some w := by
  obtain ⟨hlen, hall⟩ := Template.create_spec h vlist hv
  refine ⟨fun hu => by simp [Template.default_products, hu],
    fun hu => by simp [Template.default_products, hu], hlen, ?_⟩
  intro q hq
  refine ⟨hall q hq, ?_⟩
  rw [hall q hq]
  exact Dict.setdefault_products_some _

/-- Witness for C2: the system user gets no default variant, user 42 gets
exactly one, and a created payload carries the `products` key. -/
theorem C2_default_variant_on_create_witness :
    Template.default_products 0 ["name"] (fun _ _ => Option.none) = [] ∧
    (Template.default_products 42 ["name"] (fun _ _ => Option.none)).length = 1 ∧
    (Template.create ⟨fun _ _ => Option.none, 1⟩ [0]).2.length = 1 ∧
    ∃ w, (((Template.create ⟨fun _ _ => Option.none, 1⟩ [0]).1).dicts
        ((⟨fun _ _ => Option.none, 1⟩ : Heap).next)) "products" = some w := by
  have h0 := C2_default_variant_on_create 0 ["name"] (fun _ _ => Option.none)
    ⟨fun _ _ => Option.none, 1⟩ [0] (by decide)
  have h42 := C2_default_variant_on_create 42 ["name"] (fun _ _ => Option.none)
    ⟨fun _ _ => Option.none, 1⟩ [0] (by decide)
  refine ⟨h0.1 rfl, ?_, h42.2.2.1, ?_⟩
  · rw [h42.2.1 (by decide)]
    rfl
  · exact ((h42.2.2.2 (0, 1) (by decide)).2)

/-- Claim C3: `get_rec_name` returns `"[" + code + "] " + name` when the
code is set (truthy), and just the proxied template name otherwise. -/
theorem C3_get_rec_name (code : Option String) (template : String → Val)
    (nm : String) (hname : template "name" = Val.str nm) :
    (∀ c, code = some c → c ≠ "" →
      Product.get_rec_name code template = some ("[" ++ c ++ "] " ++ nm)) ∧
    (code = Option.none ∨ code = some "" →
      Product.get_rec_name code template = some nm) := by
  have ht : Product.get_template template "name" = some (Val.str nm) := by
    simp [Product.get_template, hname]
  constructor
  · intro c hc hcne
    simp [Product.get_rec_name, ht, hc, hcne]
  · rintro (hc | hc) <;> simp [Product.get_rec_name, ht, hc]

/-- Witness for C3: code `C1` and template name `Widget` give
`[C1] Widget`; without a code the result is `Widget`. -/
theorem C3_get_rec_name_witness :
    Product.get_rec_name (some "C1")
        (fun n => if n = "name" then Val.str "Widget" else Val.none)
      = some "[C1] Widget" ∧
    Product.get_rec_name Option.none
        (fun n => if n = "name" then Val.str "Widget" else Val.none)
      = some "Widget" :=
  ⟨(C3_get_rec_name (some "C1") _ "Widget" rfl).1 "C1" rfl (by decide),
   (C3_get_rec_name Option.none _ "Widget" rfl).2 (Or.inl rfl)⟩

/-- Claim C4: `search_rec_name` produces a `code` match and a
`template.name` match with the operator and operand of the clause unchanged,
joined by `AND` when the operator starts with `!` or `not `, by `OR`
otherwise. -/
theorem C4_search_rec_name (clause : Clause) :
    (Product.search_rec_name clause).2.1
        = { field := "code", operator := clause.operator,
            operand := clause.operand } ∧
    (Product.search_rec_name clause).2.2
        = { field := "template.name", operator := clause.operator,
            operand := clause.operand } ∧
    ((py_startswith clause.operator "!" = true ∨
        py_startswith clause.operator "not " = true) →
      (Product.search_rec_name clause).1 = "AND") ∧
    (py_startswith clause.operator "!" = false →
      py_startswith clause.operator "not " = false →
      (Product.search_rec_name clause).1 = "OR") := by
  refine ⟨rfl, rfl, ?_, ?_⟩
  · rintro (hs | hs) <;> simp [Product.search_rec_name, hs]
  · intro h1 h2
    simp [Product.search_rec_name, h1, h2]

/-- Witness for C4: a `not ilike` clause joins with `AND`, an `ilike`
clause with `OR`. -/
theorem C4_search_rec_name_witness :
    (Product.search_rec_name ⟨"rec_name", "not ilike", [Val.str "%W%"]⟩).1
        = "AND" ∧
    (Product.search_rec_name ⟨"rec_name", "ilike", [Val.str "%W%"]⟩).1 = "OR" :=
  ⟨(C4_search_rec_name ⟨"rec_name", "not ilike", [Val.str "%W%"]⟩).2.2.1
      (Or.inr (by decide)),
   (C4_search_rec_name ⟨"rec_name", "ilike", [Val.str "%W%"]⟩).2.2.2
      (by decide) (by decide)⟩

/-- Claim C5: with a (truthy) target uom in the transaction context,
`get_price_uom` maps each product id to the underlying price (field name
with the `_uom` suffix stripped) converted by the external utility from
the `default_uom` of the product into the target; without one, to the raw
underlying price. -/
theorem C5_get_price_uom (compute_price : Int → ℚ → Int → ℚ)
    (context : String → Option Val) (products : List PriceProduct)
    (name : String)
    (hname : name = "list_price_uom" ∨ name = "cost_price_uom")
    (hnd : (products.map PriceProduct.id).Nodup) :
    (∀ u, context "uom" = some (Val.int u) → u ≠ 0 →
      ∃ m, Product.get_price_uom compute_price context products name = some m ∧
        ∀ p ∈ products, m p.id = some (compute_price p.default_uom
            (if name = "list_price_uom" then p.list_price else p.cost_price) u)) ∧
    (context "uom" = Option.none →
      ∃ m, Product.get_price_uom compute_price context products name = some m ∧
        ∀ p ∈ products, m p.id
          = some (if name = "list_price_uom" then p.list_price
              else p.cost_price)) := by
  have hf : ∀ p : PriceProduct, p.getPrice (name.dropRight 4)
      = some (if name = "list_price_uom" then p.list_price else p.cost_price) := by
    intro p
    rcases hname with hn | hn <;> subst hn <;> rfl
  constructor
  · intro u hu hu0
    have hctx : ctx_uom context = some (Val.int u) := by
      have : pyTruthy (Val.int u) = true := by
        simp [pyTruthy, hu0]
      simp [ctx_uom, hu, this]
    have hmapM := mapM_option_congr
      (fun p : PriceProduct => (p.getPrice (name.dropRight 4)).map
        (fun pr => (p.id, compute_price p.default_uom pr u)))
      (fun p : PriceProduct => (p.id, compute_price p.default_uom
        (if name = "list_price_uom" then p.list_price else p.cost_price) u))
      products (fun p _ => by simp [hf])
    refine ⟨buildDict (products.map (fun p : PriceProduct => (p.id,
      compute_price p.default_uom
        (if name = "list_price_uom" then p.list_price else p.cost_price) u))),
      ?_, ?_⟩
    · simp only [Product.get_price_uom, hctx, hmapM]
      rfl
    · intro p hp
      refine buildDict_lookup _ _ _ ?_ ?_
      · rw [List.map_map]
        exact hnd
      · exact List.mem_map_of_mem _ hp
  · intro hu
    have hctx : ctx_uom context = Option.none := by
      simp [ctx_uom, hu]
    have hmapM := mapM_option_congr
      (fun p : PriceProduct => (p.getPrice (name.dropRight 4)).map
        (fun pr => (p.id, pr)))
      (fun p : PriceProduct => (p.id,
        if name = "list_price_uom" then p.list_price else p.cost_price))
      products (fun p _ => by simp [hf])
    refine ⟨buildDict (products.map (fun p : PriceProduct => (p.id,
      if name = "list_price_uom" then p.list_price else p.cost_price))),
      ?_, ?_⟩
    · simp only [Product.get_price_uom, hctx, hmapM]
      rfl
    · intro p hp
      refine buildDict_lookup _ _ _ ?_ ?_
      · rw [List.map_map]
        exact hnd
      · exact List.mem_map_of_mem _ hp

/-- Witness for C5: cost price 10 in uom 1 converts to 10000 under a
1-to-1000 conversion into context uom 2, and stays 10 with no context
uom. -/
theorem C5_get_price_uom_witness :
    (∃ m, Product.get_price_uom
        (fun fromU pr toU => if fromU = 1 ∧ toU = 2 then pr * 1000 else pr)
        (fun k => if k = "uom" then some (Val.int 2) else Option.none)
        [⟨5, 1, 3, 10⟩] "cost_price_uom" = some m ∧ m 5 = some 10000) ∧
    (∃ m, Product.get_price_uom
        (fun fromU pr toU => if fromU = 1 ∧ toU = 2 then pr * 1000 else pr)
        (fun _ => Option.none) [⟨5, 1, 3, 10⟩] "cost_price_uom" = some m ∧
      m 5 = some 10) := by
  constructor
  · obtain ⟨m, hm, hall⟩ := (C5_get_price_uom
      (fun fromU pr toU => if fromU = 1 ∧ toU = 2 then pr * 1000 else pr)
      (fun k => if k = "uom" then some (Val.int 2) else Option.none)
      [⟨5, 1, 3, 10⟩] "cost_price_uom" (Or.inr rfl) (by simp)).1 2 rfl
      (by norm_num)
    refine ⟨m, hm, ?_⟩
    have h5 := hall ⟨5, 1, 3, 10⟩ (List.mem_singleton.mpr rfl)
    norm_num at h5
    exact h5
  · obtain ⟨m, hm, hall⟩ := (C5_get_price_uom
      (fun fromU pr toU => if fromU = 1 ∧ toU = 2 then pr * 1000 else pr)
      (fun _ => Option.none) [⟨5, 1, 3, 10⟩] "cost_price_uom" (Or.inr rfl)
      (by simp)).2 rfl
    refine ⟨m, hm, ?_⟩
    have h5 := hall ⟨5, 1, 3, 10⟩ (List.mem_singleton.mpr rfl)
    norm_num at h5
    exact h5

/-- Claim C6: after the `__register__` migration statements, rows with
legacy type `stockable` or `consumable` have type `goods`, rows originally
`consumable` additionally have `consumable = true` (the flag is set by the
first UPDATE, before the type rewrite), and rows with any other type are
unchanged; no statement touches the other columns. -/
theorem C6_register_type_migration (rows : List Row) :
    Template.register_migration rows
        = rows.map (fun r => migrateType (migrateConsumable r)) ∧
    ∀ r : Row,
      ((r.type = "stockable" ∨ r.type = "consumable") →
        (migrateType (migrateConsumable r)).type = "goods") ∧
      (r.type = "consumable" →
        (migrateType (migrateConsumable r)).consumable = true) ∧
      (r.type = "stockable" →
        (migrateType (migrateConsumable r)).consumable = r.consumable) ∧
      (migrateType (migrateConsumable r)).data = r.data ∧
      (r.type ≠ "stockable" → r.type ≠ "consumable" →
        migrateType (migrateConsumable r) = r) := by
  refine ⟨by simp [Template.register_migration, List.map_map], ?_⟩
  intro r
  by_cases hs : r.type = "stockable"
  · have hc : r.type ≠ "consumable" := by
      rw [hs]; decide
    refine ⟨fun _ => ?_, fun h => absurd h hc, fun _ => ?_, ?_, fun h _ => absurd hs h⟩
    · simp [migrateConsumable, migrateType, hs, hc]
    · simp [migrateConsumable, migrateType, hs, hc]
    · simp [migrateConsumable, migrateType, hs, hc]
  · by_cases hc : r.type = "consumable"
    · refine ⟨fun _ => ?_, fun _ => ?_, fun h => absurd h hs, ?_, fun _ h => absurd hc h⟩
      · simp [migrateConsumable, migrateType, hc]
      · simp [migrateConsumable, migrateType, hc]
      · simp [migrateConsumable, migrateType, hc]
    · have huntouched : migrateType (migrateConsumable r) = r := by
        simp [migrateConsumable, migrateType, hs, hc]
      exact ⟨fun h => absurd h (by
          rintro (h1 | h1)
          exacts [hs h1, hc h1]),
        fun h => absurd h hc, fun h => absurd h hs,
        by rw [huntouched], fun _ _ => huntouched⟩

/-- Witness for C6: a legacy `stockable` row becomes `goods` keeping its
flag, a legacy `consumable` row becomes `goods` with the flag set, and a
`service` row is untouched. -/
theorem C6_register_type_migration_witness :
    (migrateType (migrateConsumable ⟨"stockable", false, fun _ => Val.none⟩)).type
        = "goods" ∧
    (migrateType (migrateConsumable ⟨"stockable", false, fun _ => Val.none⟩)).consumable
        = false ∧
    (migrateType (migrateConsumable ⟨"consumable", false, fun _ => Val.none⟩)).type
        = "goods" ∧
    (migrateType (migrateConsumable ⟨"consumable", false, fun _ => Val.none⟩)).consumable
        = true ∧
    migrateType (migrateConsumable ⟨"service", false, fun _ => Val.none⟩)
        = ⟨"service", false, fun _ => Val.none⟩ :=
  ⟨((C6_register_type_migration []).2 ⟨"stockable", false, fun _ => Val.none⟩).1
      (Or.inl rfl),
   ((C6_register_type_migration []).2 ⟨"stockable", false, fun _ => Val.none⟩).2.2.1
      rfl,
   ((C6_register_type_migration []).2 ⟨"consumable", false, fun _ => Val.none⟩).1
      (Or.inr rfl),
   ((C6_register_type_migration []).2 ⟨"consumable", false, fun _ => Val.none⟩).2.1
      rfl,
   ((C6_register_type_migration []).2 ⟨"service", false, fun _ => Val.none⟩).2.2.2.2
      (by decide) (by decide)⟩

/-- Claim C7: `Product.search_template` rewrites a clause on a proxy field
into the same clause on `template.<name>`, and
`Template.search_default_uom_category` rewrites a clause on
`default_uom_category` into the same clause on `default_uom.category`,
both keeping operator and operand unchanged. -/
theorem C7_search_clause_rewrite (name : String) (clause : Clause) :
    Product.search_template name clause
        = [{ field := "template." ++ name, operator := clause.operator,
             operand := clause.operand }] ∧
    Template.search_default_uom_category clause
        = [{ field := "default_uom.category", operator := clause.operator,
             operand := clause.operand }] :=
  ⟨rfl, rfl⟩

/-- Witness for C7 on concrete clauses. -/
theorem C7_search_clause_rewrite_witness :
    Product.search_template "type" ⟨"type", "=", [Val.str "goods"]⟩
        = [⟨"template.type", "=", [Val.str "goods"]⟩] ∧
    Template.search_default_uom_category
        ⟨"default_uom_category", "=", [Val.int 3]⟩
        = [⟨"default_uom.category", "=", [Val.int 3]⟩] :=
  ⟨(C7_search_clause_rewrite "type" ⟨"type", "=", [Val.str "goods"]⟩).1,
   (C7_search_clause_rewrite "type" ⟨"default_uom_category", "=", [Val.int 3]⟩).2⟩

/-- Claim C8: both `search_global` wrappers never yield an empty icon: a
falsy icon from the framework is replaced by `tryton-product`, and a
non-empty icon, the record and the record name pass through unchanged. -/
theorem C8_search_global_icon {α : Type}
    (results : List (α × String × Option String)) :
    (∀ y ∈ Template.search_global results, y.2.2 ≠ "") ∧
    (∀ y ∈ Product.search_global results, y.2.2 ≠ "") ∧
    ∀ r0 nm ic, (r0, nm, ic) ∈ results →
      ((ic = Option.none ∨ ic = some "") →
        (r0, nm, "tryton-product") ∈ Template.search_global results ∧
        (r0, nm, "tryton-product") ∈ Product.search_global results) ∧
      ∀ s, ic = some s → s ≠ "" →
        (r0, nm, s) ∈ Template.search_global results ∧
        (r0, nm, s) ∈ Product.search_global results := by
  have hne : ∀ icon : Option String, pyOrStr icon "tryton-product" ≠ "" := by
    intro icon
    cases icon with
    | none => simp [pyOrStr]
    | some s =>
      by_cases hs : s = "" <;> simp [pyOrStr, hs]
  have htmem : ∀ (r0 : α) (nm : String) (ic : Option String), (r0, nm, ic) ∈ results →
      (r0, nm, pyOrStr ic "tryton-product") ∈ Template.search_global results :=
    fun r0 nm ic h => List.mem_map_of_mem _ h
  have hpmem : ∀ (r0 : α) (nm : String) (ic : Option String), (r0, nm, ic) ∈ results →
      (r0, nm, pyOrStr ic "tryton-product") ∈ Product.search_global results :=
    fun r0 nm ic h => List.mem_map_of_mem _ h
  refine ⟨?_, ?_, ?_⟩
  · intro y hy
    obtain ⟨r, _, rfl⟩ := List.mem_map.mp hy
    exact hne r.2.2
  · intro y hy
    obtain ⟨r, _, rfl⟩ := List.mem_map.mp hy
    exact hne r.2.2
  · intro r0 nm ic hmem
    constructor
    · rintro (hic | hic) <;> subst hic
      · exact ⟨htmem r0 nm Option.none hmem, hpmem r0 nm Option.none hmem⟩
      · exact ⟨htmem r0 nm (some "") hmem, hpmem r0 nm (some "") hmem⟩
    · intro s hic hsne
      subst hic
      have he : pyOrStr (some s) "tryton-product" = s := by
        simp [pyOrStr, hsne]
      exact ⟨he ▸ htmem r0 nm (some s) hmem, he ▸ hpmem r0 nm (some s) hmem⟩

/-- Witness for C8: a missing icon is replaced, a supplied one kept. -/
theorem C8_search_global_icon_witness :
    (3, "Widget", "tryton-product")
        ∈ Template.search_global [((3 : Int), "Widget", (Option.none : Option String))] ∧
    (3, "Widget", "icon-x")
        ∈ Product.search_global [((3 : Int), "Widget", some "icon-x")] :=
  ⟨((C8_search_global_icon [((3 : Int), "Widget", (Option.none : Option String))]).2.2
      3 "Widget" Option.none (List.mem_singleton.mpr rfl)).1 (Or.inl rfl) |>.1,
   ((C8_search_global_icon [((3 : Int), "Widget", some "icon-x")]).2.2
      3 "Widget" (some "icon-x") (List.mem_singleton.mpr rfl)).2 "icon-x" rfl
      (by decide) |>.2⟩

/-- Claim C9: copying a `TemplateFunction` shallowly or deeply yields a
`TemplateFunction` again, wrapping the corresponding copy of the inner
field and wired to `get_template` / `search_template`. -/
theorem C9_templatefunction_copy {F : Type} (copyF deepF : F → F)
    (tf : FunctionField F) :
    (TemplateFunction.copy copyF tf = TemplateFunction.make (copyF tf.field) ∧
      (TemplateFunction.copy copyF tf).isTemplateFunction = true ∧
      (TemplateFunction.copy copyF tf).getter = "get_template" ∧
      (TemplateFunction.copy copyF tf).searcher = "search_template") ∧
    (TemplateFunction.deepcopy deepF tf = TemplateFunction.make (deepF tf.field) ∧
      (TemplateFunction.deepcopy deepF tf).isTemplateFunction = true ∧
      (TemplateFunction.deepcopy deepF tf).getter = "get_template" ∧
      (TemplateFunction.deepcopy deepF tf).searcher = "search_template") :=
  ⟨⟨rfl, rfl, rfl, rfl⟩, ⟨rfl, rfl, rfl, rfl⟩⟩

/-- Witness for C9 at a concrete descriptor. -/
theorem C9_templatefunction_copy_witness :
    (TemplateFunction.copy (fun n : Nat => n) (TemplateFunction.make 7)).getter
        = "get_template" ∧
    (TemplateFunction.deepcopy (fun n : Nat => n + 1)
        (TemplateFunction.make 7)).isTemplateFunction = true :=
  ⟨(C9_templatefunction_copy (fun n : Nat => n) (fun n => n + 1)
      (TemplateFunction.make 7)).1.2.2.1,
   (C9_templatefunction_copy (fun n : Nat => n) (fun n => n + 1)
      (TemplateFunction.make 7)).2.2.1⟩

/-- Claim C10: `Template.create` never mutates the caller dicts: every
heap address allocated before the call still holds the same dict
afterwards; in particular a payload without a `products` key still has
none. -/
theorem C10_create_immutable_payloads (h : Heap) (vlist : List Nat) (a : Nat)
    (ha : a < h.next) :
    ((Template.create h vlist).1).dicts a = h.dicts a ∧
    ((h.dicts a) "products" = Option.none →
      (((Template.create h vlist).1).dicts a) "products" = Option.none) := by
  have hp := Template.create_preserves h vlist a ha
  exact ⟨hp, fun hnone => by rw [hp]; exact hnone⟩

/-- Witness for C10 on a one-payload heap. -/
theorem C10_create_immutable_payloads_witness :
    ((Template.create ⟨fun _ _ => Option.none, 1⟩ [0]).1).dicts 0
        = (⟨fun _ _ => Option.none, 1⟩ : Heap).dicts 0 ∧
    (((Template.create ⟨fun _ _ => Option.none, 1⟩ [0]).1).dicts 0) "products"
        = Option.none :=
  ⟨(C10_create_immutable_payloads ⟨fun _ _ => Option.none, 1⟩ [0] 0 (by decide)).1,
   (C10_create_immutable_payloads ⟨fun _ _ => Option.none, 1⟩ [0] 0 (by decide)).2
      rfl⟩

end TrytonProduct
